import Mathlib

/-!
# go-gdal adapter layer (`gorio`): shallow embedding and verified properties

The adapter is a thin C++ layer over the GDAL raster engine.  The embedding
follows the sources `src/gorio/gorio.cpp` (extended surface: `failed`,
`forceError`, dataset, band and transform operations) and `src/gorio.cpp`
(`GOrioBuildVRT`, `godalErrorHandler`).  The operations that occur in both
files have the same body in both.  `GOrioGetAuthorityCode` (WKT parsing on
an engine-side object) is not embedded.

Modelling conventions
* `void*` handles and buffers are addresses (`Nat`), `0` is the null pointer.
* `const char*` is `Option String`, `none` is the null pointer.
* `char**` option lists are `Option (List String)`, `none` is the null pointer.
* C `int` is `Int` (no arithmetic in the sources can overflow).
* `double` is a type parameter `D` carrying the operations the sources use
  (`+`, `*`, conversion from `int`, decimal literals); nothing is assumed
  about these operations, so every statement holds for IEEE binary64
  arithmetic as well as for exact arithmetic.
* The raster engine is external.  It is a parameter: a transition function
  on an abstract engine state, one response per engine call.  Every call the
  adapter makes is also appended to a trace, so that "which engine calls
  were made, with which arguments" is observable.
-/

namespace Gorio

/-! ## Pointers and engine enumerations -/

/-- Opaque `void*` (DatasetHandle, BandHandle, buffers, engine objects):
an address, `0` being the null pointer. -/
abbrev Handle := Nat

/-- A `const char*` C string; `none` is the null pointer. -/
abbrev CString := Option String

/-- A `char**` null-terminated string list; `none` is the null pointer. -/
abbrev Options := Option (List String)

/-- The engine's `CPLErr` severity / result enumeration (`cpl_error.h`). -/
inductive CPLErr where
  | CE_None
  | CE_Debug
  | CE_Warning
  | CE_Failure
  | CE_Fatal
  deriving DecidableEq, Repr

/-- Integer value of a `CPLErr` enumerator (`CE_None = 0` ... `CE_Fatal = 4`). -/
def CPLErr.toInt : CPLErr → Int
  | .CE_None => 0
  | .CE_Debug => 1
  | .CE_Warning => 2
  | .CE_Failure => 3
  | .CE_Fatal => 4

/-- The engine's `CPLE_AppDefined` error number (`cpl_error.h`). -/
def CPLE_AppDefined : Int := 1

/-- The engine's `GDALAccess` flag. -/
inductive GDALAccess where
  | GA_ReadOnly
  | GA_Update
  deriving DecidableEq, Repr

/-- The engine's `GDALRWFlag`. -/
inductive GDALRWFlag where
  | GF_Read
  | GF_Write
  deriving DecidableEq, Repr

/-- The engine's `GDALDataType` enumerators used by the adapter; `other n`
is any further enumerator a caller may pass through `GOrioWriteBand` or
`GOrioCreate`. -/
inductive GDALDataType where
  | GDT_Int32
  | GDT_Float32
  | GDT_Float64
  | other (n : Nat)
  deriving DecidableEq, Repr

/-- The engine's resampling algorithm; `GRIORA_Bilinear` and `GRA_Bilinear`
are both the integer 1 and the header defines the former as the latter when
it is absent. -/
inductive GDALResampleAlg where
  | GRA_NearestNeighbour
  | GRA_Bilinear
  deriving DecidableEq, Repr

/-- `GRIORA_Bilinear`, as used by `GOrioReproject`. -/
abbrev GRIORA_Bilinear : GDALResampleAlg := .GRA_Bilinear

/-- `GOrioError` of `gorio.h`. -/
inductive GOrioError where
  | GORIO_SUCCESS
  | GORIO_ERROR_OPEN
  | GORIO_ERROR_BOUNDS
  | GORIO_ERROR_CRS
  | GORIO_ERROR_BAND
  | GORIO_ERROR_READ
  | GORIO_ERROR_WRITE
  | GORIO_ERROR_COPY
  | GORIO_ERROR_REPROJECT
  | GORIO_ERROR_VRT
  | GORIO_ERROR_INVALID_PARAMS
  deriving DecidableEq, Repr

/-- Integer value of a `GOrioError` enumerator, as declared in `gorio.h`. -/
def GOrioError.toInt : GOrioError → Int
  | .GORIO_SUCCESS => 0
  | .GORIO_ERROR_OPEN => 1
  | .GORIO_ERROR_BOUNDS => 2
  | .GORIO_ERROR_CRS => 3
  | .GORIO_ERROR_BAND => 4
  | .GORIO_ERROR_READ => 5
  | .GORIO_ERROR_WRITE => 6
  | .GORIO_ERROR_COPY => 7
  | .GORIO_ERROR_REPROJECT => 8
  | .GORIO_ERROR_VRT => 9
  | .GORIO_ERROR_INVALID_PARAMS => 10

/-! ## Data model of `gorio.h` -/

/-- The error context `cctx` of `gorio.h`. -/
structure cctx where
  errMessage : Option String
  handlerIdx : Int
  failed : Int
  configOptions : Options
  deriving DecidableEq, Repr

/-- The `Bounds` value object of `gorio.h`. -/
structure Bounds (D : Type) where
  left : D
  bottom : D
  right : D
  top : D
  deriving DecidableEq, Repr

/-- The `DatasetInfo` snapshot of `gorio.h`. -/
structure DatasetInfo where
  width : Int
  height : Int
  bandCount : Int
  deriving DecidableEq, Repr

/-! ## The raster engine as an external collaborator -/

/-- One call from the adapter into the raster engine, with its arguments. -/
inductive EngineCall (D : Type) where
  | GDALAllRegister
  | GDALOpen (pszFilename : CString) (eAccess : GDALAccess)
  | GDALClose (hDS : Handle)
  | GetGeoTransform (ds : Handle)
  | GetRasterXSize (ds : Handle)
  | GetRasterYSize (ds : Handle)
  | GetRasterCount (ds : Handle)
  | GetSpatialRef (ds : Handle)
  | exportToWkt (srs : Handle)
  | GetRasterBand (ds : Handle) (nBand : Int)
  | RasterIO (band : Handle) (eRWFlag : GDALRWFlag) (nXOff nYOff nXSize nYSize : Int)
      (pData : Handle) (nBufXSize nBufYSize : Int) (eBufType : GDALDataType)
      (nPixelSpace nLineSpace : Int)
  | GetDriverByName (name : String)
  | CreateCopy (driver : Handle) (pszFilename : CString) (poSrcDS : Handle) (bStrict : Int)
      (papszOptions : Options) (pfnProgress pProgressData : Handle)
  | GDALAutoCreateWarpedVRT (hSrcDS : Handle) (pszSrcWKT pszDstWKT : CString)
      (eResampleAlg : GDALResampleAlg) (dfMaxError : D) (psOptions : Handle)
  | Create (driver : Handle) (pszFilename : CString) (nXSize nYSize nBands : Int)
      (eType : GDALDataType) (papszOptions : Options)
  | SetNoDataValue (band : Handle) (dfNoData : D)
  | SetGeoTransform (ds : Handle) (padfTransform : Handle)
  | SetProjection (ds : Handle) (pszProjection : CString)
  | GetBlockSize (band : Handle)
  | GetNoDataValue (band : Handle)
  | GDALTranslateOptionsNew (papszArgv : Options) (psOptionsForBinary : Handle)
  | GDALTranslate (pszDest : CString) (hSrcDS : Handle) (psOptions : Handle)
      (pbUsageError : Handle)
  | GDALTranslateOptionsFree (psOptions : Handle)
  | GDALBuildVRT (pszDest : CString) (nSrcCount : Nat) (pahSrcDS : List Handle)
      (options : Options) (progress : Handle)
  | CPLError (eErrClass : CPLErr) (err_no : Int) (msg : String)

/-- What the engine hands back for each call. -/
abbrev EngineCall.Resp {D : Type} : EngineCall D → Type
  | .GDALAllRegister => Unit
  | .GDALOpen _ _ => Handle
  | .GDALClose _ => Unit
  | .GetGeoTransform _ => CPLErr × (Fin 6 → D)
  | .GetRasterXSize _ => Int
  | .GetRasterYSize _ => Int
  | .GetRasterCount _ => Int
  | .GetSpatialRef _ => Handle
  | .exportToWkt _ => CString
  | .GetRasterBand _ _ => Handle
  | EngineCall.RasterIO _ _ _ _ _ _ _ _ _ _ _ _ => CPLErr
  | .GetDriverByName _ => Handle
  | .CreateCopy _ _ _ _ _ _ _ => Handle
  | .GDALAutoCreateWarpedVRT _ _ _ _ _ _ => Handle
  | .Create _ _ _ _ _ _ _ => Handle
  | .SetNoDataValue _ _ => CPLErr
  | .SetGeoTransform _ _ => CPLErr
  | .SetProjection _ _ => CPLErr
  | .GetBlockSize _ => Int × Int
  | .GetNoDataValue _ => D × Int
  | .GDALTranslateOptionsNew _ _ => Handle
  | .GDALTranslate _ _ _ _ => Handle
  | .GDALTranslateOptionsFree _ => Unit
  | .GDALBuildVRT _ _ _ _ _ => Handle
  | .CPLError _ _ _ => Unit

/-- The engine: for each call, a response and a successor engine state. -/
abbrev Engine (σ D : Type) := (c : EngineCall D) → σ → c.Resp × σ

/-- The adapter's view of the world: the engine's state and the trace of
engine calls made so far (oldest first). -/
structure World (σ D : Type) where
  eng : σ
  trace : List (EngineCall D)

/-- Perform one engine call: record it in the trace and step the engine. -/
def call {σ D : Type} (E : Engine σ D) (c : EngineCall D) (w : World σ D) :
    c.Resp × World σ D :=
  ((E c w.eng).1, { eng := (E c w.eng).2, trace := w.trace ++ [c] })

/-! ## `src/gorio/gorio.cpp` -/

section Adapter

variable {σ D : Type}

/-- `failed(ctx)`. -/
def failed (ctx : cctx) : Int :=
  if ctx.errMessage ≠ none ∨ ctx.failed ≠ 0 then 1 else 0

/-- `forceError(ctx)`: the call `CPLError(CE_Failure, CPLE_AppDefined,
"unknown error")` it makes when the context has neither message nor flag. -/
def forceError (E : Engine σ D) (ctx : cctx) (w : World σ D) : World σ D :=
  if ctx.errMessage = none ∧ ctx.failed = 0 then
    (call E (.CPLError .CE_Failure CPLE_AppDefined "unknown error") w).2
  else w

/-- `GOrioOpenDataset(filename)`. -/
def GOrioOpenDataset (E : Engine σ D) (filename : CString) (w : World σ D) :
    Handle × World σ D :=
  let w := (call E .GDALAllRegister w).2
  let (dataset, w) := call E (.GDALOpen filename .GA_ReadOnly) w
  (dataset, w)

/-- `GOrioCloseDataset(dataset)`. -/
def GOrioCloseDataset (E : Engine σ D) (dataset : Handle) (w : World σ D) : World σ D :=
  if dataset ≠ 0 then (call E (.GDALClose dataset) w).2 else w

/-- `GOrioGetDatasetBounds(dataset, bounds)`.  The `Bounds*` out-parameter is
`none` for a null pointer and `some b` for a pointer to a `Bounds` currently
holding `b`; the second component of the result is the pointee afterwards. -/
def GOrioGetDatasetBounds [Add D] [Mul D] [IntCast D] (E : Engine σ D)
    (dataset : Handle) (bounds : Option (Bounds D)) (w : World σ D) :
    Int × Option (Bounds D) × World σ D :=
  if dataset = 0 then (1, bounds, w) else
  match bounds with
  | none => (1, none, w)
  | some b =>
    let ds := dataset
    let (r, w) := call E (.GetGeoTransform ds) w
    let adfGeoTransform := r.2
    if r.1 ≠ CPLErr.CE_None then (1, some b, w) else
    let (width, w) := call E (.GetRasterXSize ds) w
    let (height, w) := call E (.GetRasterYSize ds) w
    let b := { b with left := adfGeoTransform 0 }
    let b := { b with top := adfGeoTransform 3 }
    let b := { b with right := adfGeoTransform 0 + (width : D) * adfGeoTransform 1 }
    let b := { b with bottom := adfGeoTransform 3 + (height : D) * adfGeoTransform 5 }
    (0, some b, w)

/-- `GOrioGetDatasetCRS(dataset)`. -/
def GOrioGetDatasetCRS (E : Engine σ D) (dataset : Handle) (w : World σ D) :
    CString × World σ D :=
  if dataset = 0 then (none, w) else
  let (srs, w) := call E (.GetSpatialRef dataset) w
  if srs = 0 then (none, w) else
  let (wkt, w) := call E (.exportToWkt srs) w
  (wkt, w)

/-- `GOrioGetRasterBand(dataset, band_num)`. -/
def GOrioGetRasterBand (E : Engine σ D) (dataset : Handle) (band_num : Int) (w : World σ D) :
    Handle × World σ D :=
  if dataset = 0 then (0, w) else
  let (band, w) := call E (.GetRasterBand dataset band_num) w
  (band, w)

/-- `GOrioReadBandFloat32(band, xoff, yoff, xsize, ysize, buffer)`. -/
def GOrioReadBandFloat32 (E : Engine σ D) (band : Handle) (xoff yoff xsize ysize : Int)
    (buffer : Handle) (w : World σ D) : Int × World σ D :=
  if band = 0 ∨ buffer = 0 then (1, w) else
  let (err, w) := call E
    (EngineCall.RasterIO band .GF_Read xoff yoff xsize ysize buffer xsize ysize .GDT_Float32 0 0) w
  (if err = CPLErr.CE_None then 0 else 1, w)

/-- `GOrioReadBandFloat64(band, xoff, yoff, xsize, ysize, buffer)`. -/
def GOrioReadBandFloat64 (E : Engine σ D) (band : Handle) (xoff yoff xsize ysize : Int)
    (buffer : Handle) (w : World σ D) : Int × World σ D :=
  if band = 0 ∨ buffer = 0 then (1, w) else
  let (err, w) := call E
    (EngineCall.RasterIO band .GF_Read xoff yoff xsize ysize buffer xsize ysize .GDT_Float64 0 0) w
  (if err = CPLErr.CE_None then 0 else 1, w)

/-- `GOrioReadBandInt32(band, xoff, yoff, xsize, ysize, buffer)`. -/
def GOrioReadBandInt32 (E : Engine σ D) (band : Handle) (xoff yoff xsize ysize : Int)
    (buffer : Handle) (w : World σ D) : Int × World σ D :=
  if band = 0 ∨ buffer = 0 then (1, w) else
  let (err, w) := call E
    (EngineCall.RasterIO band .GF_Read xoff yoff xsize ysize buffer xsize ysize .GDT_Int32 0 0) w
  (if err = CPLErr.CE_None then 0 else 1, w)

/-- `GOrioCreateCopy(src, dst_filename, options)`. -/
def GOrioCreateCopy (E : Engine σ D) (src : Handle) (dst_filename : CString)
    (options : Options) (w : World σ D) : Handle × World σ D :=
  if src = 0 then (0, w) else
  let (driver, w) := call E (.GetDriverByName "GTiff") w
  if driver = 0 then (0, w) else
  let (dstDS, w) := call E (.CreateCopy driver dst_filename src 0 options 0 0) w
  (dstDS, w)

/-- `GOrioReproject(src, dst_crs, options)`. -/
def GOrioReproject [OfScientific D] (E : Engine σ D) (src : Handle) (dst_crs : CString)
    (_options : Options) (w : World σ D) : Handle × World σ D :=
  if src = 0 ∨ dst_crs = none then (0, w) else
  let (warpedDS, w) := call E
    (.GDALAutoCreateWarpedVRT src none dst_crs GRIORA_Bilinear 5.0 0) w
  (warpedDS, w)

/-- `GOrioWarp(src, dst_crs, options)`. -/
def GOrioWarp [OfScientific D] (E : Engine σ D) (src : Handle) (dst_crs : CString)
    (_options : Options) (w : World σ D) : Handle × World σ D :=
  if src = 0 then (0, w) else
  let (warpedDS, w) := call E
    (.GDALAutoCreateWarpedVRT src none dst_crs .GRA_Bilinear 0.0 0) w
  (warpedDS, w)

/-- `GOrioCreate(filename, width, height, bands, datatype, options)`. -/
def GOrioCreate (E : Engine σ D) (filename : CString) (width height bands : Int)
    (datatype : GDALDataType) (options : Options) (w : World σ D) : Handle × World σ D :=
  let (driver, w) := call E (.GetDriverByName "GTiff") w
  if driver = 0 then (0, w) else
  let (ds, w) := call E (.Create driver filename width height bands datatype options) w
  (ds, w)

/-- `GOrioWriteBand(band, xoff, yoff, xsize, ysize, buffer, dtype)`. -/
def GOrioWriteBand (E : Engine σ D) (band : Handle) (xoff yoff xsize ysize : Int)
    (buffer : Handle) (dtype : GDALDataType) (w : World σ D) : Int × World σ D :=
  if band = 0 ∨ buffer = 0 then (1, w) else
  let (err, w) := call E
    (EngineCall.RasterIO band .GF_Write xoff yoff xsize ysize buffer xsize ysize dtype 0 0) w
  (if err = CPLErr.CE_None then 0 else 1, w)

/-- `GOrioSetNoDataValue(band, nodata)`. -/
def GOrioSetNoDataValue (E : Engine σ D) (band : Handle) (nodata : D) (w : World σ D) :
    Int × World σ D :=
  if band = 0 then (1, w) else
  let (err, w) := call E (.SetNoDataValue band nodata) w
  (if err = CPLErr.CE_None then 0 else 1, w)

/-- `GOrioSetGeoTransform(dataset, transform)`. -/
def GOrioSetGeoTransform (E : Engine σ D) (dataset : Handle) (transform : Handle)
    (w : World σ D) : Int × World σ D :=
  if dataset = 0 ∨ transform = 0 then (1, w) else
  let (err, w) := call E (.SetGeoTransform dataset transform) w
  (if err = CPLErr.CE_None then 0 else 1, w)

/-- `GOrioSetProjection(dataset, wkt)`. -/
def GOrioSetProjection (E : Engine σ D) (dataset : Handle) (wkt : CString) (w : World σ D) :
    Int × World σ D :=
  if dataset = 0 ∨ wkt = none then (1, w) else
  let (err, w) := call E (.SetProjection dataset wkt) w
  (if err = CPLErr.CE_None then 0 else 1, w)

/-- `GOrioGetBlockSize(band, xsize, ysize)`; the two `int*` out-parameters
are `none` for a null pointer, `some v` for a pointer to an `int` holding `v`. -/
def GOrioGetBlockSize (E : Engine σ D) (band : Handle) (xsize ysize : Option Int)
    (w : World σ D) : Int × Option Int × Option Int × World σ D :=
  if band = 0 ∨ xsize = none ∨ ysize = none then (1, xsize, ysize, w) else
  let (r, w) := call E (.GetBlockSize band) w
  (0, some r.1, some r.2, w)

/-- `GOrioGetNoDataValue(band, success)`; `success` is `none` for a null
pointer, `some v` for a pointer to an `int` holding `v`. -/
def GOrioGetNoDataValue [IntCast D] (E : Engine σ D) (band : Handle) (success : Option Int)
    (w : World σ D) : D × Option Int × World σ D :=
  if band = 0 then
    (((0 : Int) : D), (if success ≠ none then some 0 else success), w)
  else
  let (r, w) := call E (.GetNoDataValue band) w
  let has_nodata := r.2
  let nodata := r.1
  (nodata, (if success ≠ none then some has_nodata else success), w)

/-- `GOrioGetGeoTransform(dataset, transform)`; `transform` is `none` for a
null pointer, otherwise the six doubles currently at the pointer. -/
def GOrioGetGeoTransform (E : Engine σ D) (dataset : Handle)
    (transform : Option (Fin 6 → D)) (w : World σ D) :
    Int × Option (Fin 6 → D) × World σ D :=
  if dataset = 0 ∨ transform.isNone then (1, transform, w) else
  let (r, w) := call E (.GetGeoTransform dataset) w
  (r.1.toInt, some r.2, w)

/-- `GOrioGetDatasetInfo(dataset)`. -/
def GOrioGetDatasetInfo (E : Engine σ D) (dataset : Handle) (w : World σ D) :
    DatasetInfo × World σ D :=
  let info : DatasetInfo := { width := 0, height := 0, bandCount := 0 }
  if dataset = 0 then (info, w) else
  let (width, w) := call E (.GetRasterXSize dataset) w
  let (height, w) := call E (.GetRasterYSize dataset) w
  let (bandCount, w) := call E (.GetRasterCount dataset) w
  ({ info with width := width, height := height, bandCount := bandCount }, w)

/-- `GOrioConvertToImage(dataset, outputFilename, format, options)`. -/
def GOrioConvertToImage (E : Engine σ D) (dataset : Handle) (outputFilename : CString)
    (_format : CString) (options : Options) (w : World σ D) : Int × World σ D :=
  if dataset = 0 then
    let w := (call E (.CPLError .CE_Failure CPLE_AppDefined "Invalid dataset handle.") w).2
    (1, w)
  else
  let ds := dataset
  let (translateOptions, w) := call E (.GDALTranslateOptionsNew options 0) w
  if translateOptions = 0 then
    let w := (call E
      (.CPLError .CE_Failure CPLE_AppDefined "Failed to create GDALTranslate options.") w).2
    (1, w)
  else
  let (translatedDSH, w) := call E (.GDALTranslate outputFilename ds translateOptions 0) w
  if translatedDSH = 0 then
    let w := (call E (.CPLError .CE_Failure CPLE_AppDefined
      "Failed to translate dataset to the specified format.") w).2
    let w := (call E (.GDALTranslateOptionsFree translateOptions) w).2
    (1, w)
  else
  let w := (call E (.GDALClose translatedDSH) w).2
  let w := (call E (.GDALTranslateOptionsFree translateOptions) w).2
  (0, w)

/-! ## `src/gorio.cpp` -/

/-- `GOrioBuildVRT(filename, count, datasets, options)`.  The `DatasetHandle*`
array is `none` for a null pointer, otherwise the function from index to the
handle stored there. -/
def GOrioBuildVRT (E : Engine σ D) (filename : CString) (count : Int)
    (datasets : Option (Nat → Handle)) (_options : Options) (w : World σ D) :
    Handle × World σ D :=
  match datasets with
  | none => (0, w)
  | some datasets =>
    if filename = none ∨ count ≤ 0 then (0, w) else
    let srcDatasets : List Handle :=
      (List.range count.toNat).foldl
        (fun srcDatasets i =>
          if datasets i ≠ 0 then srcDatasets ++ [datasets i] else srcDatasets) []
    if srcDatasets.isEmpty then (0, w) else
    let (vrtDS, w) := call E
      (.GDALBuildVRT filename srcDatasets.length srcDatasets none 0) w
    (vrtDS, w)

end Adapter

/-! ## The error bridge (`godalErrorHandler`, `src/gorio.cpp`) -/

/-- One invocation of the host callback `goErrorHandler(idx, e, n, msg)`. -/
structure HostCall where
  idx : Int
  e : CPLErr
  n : Int
  msg : String
  deriving DecidableEq, Repr

/-- The host callback `goErrorHandler`, which lives on the host side and is a
parameter here: from its arguments and the host's state it yields the `int`
it returns and the host's next state.  It is given the handler index, not
the context, and so has no access to the `cctx`. -/
abbrev HostHandler (η : Type) := Int → CPLErr → Int → String → η → Int × η

/-- What `godalErrorHandler` acts on: the context registered as the error
handler's user data (`CPLGetErrorHandlerUserData()`, asserted non-null), the
text written to `stderr`, the host's state and the host callback invocations
made so far (oldest first). -/
structure Bridge (η : Type) where
  ctx : cctx
  stderr : List String
  host : η
  hostCalls : List HostCall

/-- `godalErrorHandler(e, n, msg)`. -/
def godalErrorHandler {η : Type} (goErrorHandler : HostHandler η)
    (e : CPLErr) (n : Int) (msg : String) (s : Bridge η) : Bridge η :=
  let ctx := s.ctx
  if ctx.handlerIdx ≠ 0 then
    let (ret, host) := goErrorHandler ctx.handlerIdx e n msg s.host
    let s := { s with host := host, hostCalls := s.hostCalls ++ [⟨ctx.handlerIdx, e, n, msg⟩] }
    if ret ≠ 0 ∧ ctx.failed = 0 then
      { s with ctx := { ctx with failed := 1 } }
    else s
  else
    if e.toInt < CPLErr.CE_Warning.toInt then
      { s with stderr := s.stderr ++ ["GDAL: " ++ msg ++ "\n"] }
    else
      match ctx.errMessage with
      | none => { s with ctx := { ctx with errMessage := some msg } }
      | some errMessage =>
        { s with ctx := { ctx with errMessage := some ((errMessage ++ "\n") ++ msg) } }

/-- One diagnostic event of the engine: severity, error number, message. -/
structure Diagnostic where
  e : CPLErr
  n : Int
  msg : String
  deriving DecidableEq, Repr

/-- Delivery of a sequence of diagnostic events, in order, to
`godalErrorHandler`. -/
def deliver {η : Type} (goErrorHandler : HostHandler η) (evs : List Diagnostic)
    (s : Bridge η) : Bridge η :=
  evs.foldl (fun s ev => godalErrorHandler goErrorHandler ev.e ev.n ev.msg s) s

/-- The diagnostic carried by an engine call, when that call is `CPLError`. -/
def EngineCall.diagnostic? {D : Type} : EngineCall D → Option Diagnostic
  | .CPLError e n msg => some ⟨e, n, msg⟩
  | _ => none

/-- The diagnostics raised between two worlds: the `CPLError` calls among
the engine calls appended to the trace. -/
def raisedSince {σ D : Type} (w w' : World σ D) : List Diagnostic :=
  (w'.trace.drop w.trace.length).filterMap EngineCall.diagnostic?

/-- `forceError(ctx)` with `godalErrorHandler` installed as the engine's error
handler and `ctx` as its user data: the engine delivers the diagnostics
raised through `CPLError` to the handler. -/
def forceErrorHandled {σ D η : Type} (goErrorHandler : HostHandler η) (E : Engine σ D)
    (s : Bridge η) (w : World σ D) : Bridge η × World σ D :=
  let w' := forceError E s.ctx w
  (deliver goErrorHandler (raisedSince w w') s, w')



/-- The messages of the events whose severity is at or above the strict-mode
threshold `CE_Warning`, in delivery order (the specification's reading of
what the accumulated message is made of). -/
def keptMessages (evs : List Diagnostic) : List String :=
  (evs.filter (fun ev => decide (CPLErr.CE_Warning.toInt ≤ ev.e.toInt))).map Diagnostic.msg

/-- The specification's accumulated message: nothing when no message was
kept, otherwise the kept messages joined by single newline characters. -/
def joinedMessage (kept : List String) : Option String :=
  if kept.isEmpty then none else some ("\n".intercalate kept)

/-! ## A concrete engine for evaluating the adapter -/

/-- A small concrete engine over exact rational arithmetic, used to evaluate
the adapter on concrete inputs.  Its state counts the calls it has served.
Object-returning calls answer with the handle `h`, result-code calls with
`rc`, the geotransform query with `(gt, g)`, size queries with `100`. -/
def sampleEngine (gt : CPLErr) (g : Fin 6 → ℚ) (rc : CPLErr) (h : Handle) : Engine Nat ℚ :=
  fun c s =>
    match c with
    | .GDALAllRegister => ((), s + 1)
    | .GDALOpen _ _ => (h, s + 1)
    | .GDALClose _ => ((), s + 1)
    | .GetGeoTransform _ => ((gt, g), s + 1)
    | .GetRasterXSize _ => (100, s + 1)
    | .GetRasterYSize _ => (100, s + 1)
    | .GetRasterCount _ => (1, s + 1)
    | .GetSpatialRef _ => (h, s + 1)
    | .exportToWkt _ => (some "LOCAL_CS[]", s + 1)
    | .GetRasterBand _ _ => (h, s + 1)
    | EngineCall.RasterIO _ _ _ _ _ _ _ _ _ _ _ _ => (rc, s + 1)
    | .GetDriverByName _ => (h, s + 1)
    | .CreateCopy _ _ _ _ _ _ _ => (h, s + 1)
    | .GDALAutoCreateWarpedVRT _ _ _ _ _ _ => (h, s + 1)
    | .Create _ _ _ _ _ _ _ => (h, s + 1)
    | .SetNoDataValue _ _ => (rc, s + 1)
    | .SetGeoTransform _ _ => (rc, s + 1)
    | .SetProjection _ _ => (rc, s + 1)
    | .GetBlockSize _ => ((256, 256), s + 1)
    | .GetNoDataValue _ => ((0, 0), s + 1)
    | .GDALTranslateOptionsNew _ _ => (h, s + 1)
    | .GDALTranslate _ _ _ _ => (h, s + 1)
    | .GDALTranslateOptionsFree _ => ((), s + 1)
    | .GDALBuildVRT _ _ _ _ _ => (h, s + 1)
    | .CPLError _ _ _ => ((), s + 1)

/-- The geotransform `(0, 1, 0, 100, 0, -1)` of the north-up scenario. -/
def northUp : Fin 6 → ℚ := ![0, 1, 0, 100, 0, -1]

/-- The world before any engine call, for `sampleEngine`. -/
def world0 : World Nat ℚ := { eng := 0, trace := [] }

/-- A second concrete engine: as `sampleEngine .CE_None northUp .CE_None 7`
(dataset handle 7), except that a band lookup answers with the band handle
`band` and the no-data query with value `nodata` and flag `has_nodata`. -/
def probeEngine (band : Handle) (nodata : ℚ) (has_nodata : Int) : Engine Nat ℚ :=
  fun c s =>
    match c with
    | .GetRasterBand _ _ => (band, s + 1)
    | .GetNoDataValue _ => ((nodata, has_nodata), s + 1)
    | c => sampleEngine .CE_None northUp .CE_None 7 c s

/-- Use after close, first half: a band handle is obtained from the dataset
`d` through `GOrioGetRasterBand`, then `d` is closed through
`GOrioCloseDataset`.  The result is the band handle the caller still holds
and the world after the close. -/
def bandThenClose {σ D : Type} (E : Engine σ D) (d : Handle) (band_num : Int)
    (w : World σ D) : Handle × World σ D :=
  let (band, w) := GOrioGetRasterBand E d band_num w
  (band, GOrioCloseDataset E d w)

/-- The non-null handles among the first `count` entries of a handle array,
in their original order, duplicates kept (the specification's reading of the
source list of a VRT). -/
def nonNullSources (datasets : Nat → Handle) (count : Int) : List Handle :=
  ((List.range count.toNat).map datasets).filter (fun h => decide (h ≠ 0))

/-! ## Verified properties -/

section Properties

variable {σ D : Type}

/-- C1: for a non-null dataset whose geotransform query succeeds with
coefficients `g` (and a non-null `Bounds` pointer to write to),
`GOrioGetDatasetBounds` returns 0 and writes `left = g[0]`, `top = g[3]`,
`right = g[0] + width*g[1]`, `bottom = g[3] + height*g[5]`, where `width` and
`height` are the engine's raster sizes; hence `right = left + width*g[1]` and
`bottom = top + height*g[5]` with no further rounding by the adapter.  For a
100x100 raster with geotransform `(0,1,0,100,0,-1)` the written value is
`{left:0, top:100, right:100, bottom:0}`. -/
theorem GOrioGetDatasetBounds_success [Add D] [Mul D] [IntCast D] (E : Engine σ D)
    (dataset : Handle) (b : Bounds D) (w w1 w2 w3 : World σ D) (g : Fin 6 → D)
    (width height : Int)
    (hds : dataset ≠ 0)
    (hgt : call E (.GetGeoTransform dataset) w = ((CPLErr.CE_None, g), w1))
    (hx : call E (.GetRasterXSize dataset) w1 = (width, w2))
    (hy : call E (.GetRasterYSize dataset) w2 = (height, w3)) :
    GOrioGetDatasetBounds E dataset (some b) w =
        (0, some { left := g 0, top := g 3, right := g 0 + (width : D) * g 1,
                   bottom := g 3 + (height : D) * g 5 }, w3) ∧
    (∀ r : Bounds D, (GOrioGetDatasetBounds E dataset (some b) w).2.1 = some r →
        r.right = r.left + (width : D) * g 1 ∧ r.bottom = r.top + (height : D) * g 5) ∧
    (∀ (τ : Type) (E' : Engine τ ℚ) (b' : Bounds ℚ) (v v1 v2 v3 : World τ ℚ),
      call E' (.GetGeoTransform dataset) v = ((CPLErr.CE_None, northUp), v1) →
      call E' (.GetRasterXSize dataset) v1 = (100, v2) →
      call E' (.GetRasterYSize dataset) v2 = (100, v3) →
      GOrioGetDatasetBounds E' dataset (some b') v =
        (0, some { left := 0, top := 100, right := 100, bottom := 0 }, v3)) := by
  have key : ∀ (τ K : Type) [Add K] [Mul K] [IntCast K] (F : Engine τ K) (c : Bounds K)
      (u u1 u2 u3 : World τ K) (k : Fin 6 → K) (x y : Int),
      call F (.GetGeoTransform dataset) u = ((CPLErr.CE_None, k), u1) →
      call F (.GetRasterXSize dataset) u1 = (x, u2) →
      call F (.GetRasterYSize dataset) u2 = (y, u3) →
      GOrioGetDatasetBounds F dataset (some c) u =
        (0, some { left := k 0, top := k 3, right := k 0 + (x : K) * k 1,
                   bottom := k 3 + (y : K) * k 5 }, u3) := by
    intro τ K _ _ _ F c u u1 u2 u3 k x y h1 h2 h3
    simp [GOrioGetDatasetBounds, hds, h1, h2, h3]
  refine ⟨key σ D E b w w1 w2 w3 g width height hgt hx hy, ?_, ?_⟩
  · intro r hr
    rw [key σ D E b w w1 w2 w3 g width height hgt hx hy] at hr
    simp only [Option.some.injEq] at hr
    subst hr
    exact ⟨rfl, rfl⟩
  · intro τ E' b' v v1 v2 v3 h1 h2 h3
    have g0 : northUp 0 = 0 := rfl
    have g1 : northUp 1 = 1 := rfl
    have g3 : northUp 3 = 100 := rfl
    have g5 : northUp 5 = -1 := rfl
    rw [key τ ℚ E' b' v v1 v2 v3 northUp 100 100 h1 h2 h3, g0, g1, g3, g5]
    norm_num

/-- Witness for C1: the north-up scenario evaluated on `sampleEngine`. -/
theorem GOrioGetDatasetBounds_success_witness :
    (7 : Handle) ≠ 0 ∧
    GOrioGetDatasetBounds (sampleEngine .CE_None northUp .CE_None 7) 7
        (some { left := 9, top := 9, right := 9, bottom := 9 }) world0 =
      (0, some { left := northUp 0, top := northUp 3,
                 right := northUp 0 + ((100 : Int) : ℚ) * northUp 1,
                 bottom := northUp 3 + ((100 : Int) : ℚ) * northUp 5 },
        { eng := 3, trace := [.GetGeoTransform 7, .GetRasterXSize 7, .GetRasterYSize 7] }) :=
  ⟨by decide,
   (GOrioGetDatasetBounds_success (sampleEngine .CE_None northUp .CE_None 7) 7
      { left := 9, top := 9, right := 9, bottom := 9 } world0
      { eng := 1, trace := [.GetGeoTransform 7] }
      { eng := 2, trace := [.GetGeoTransform 7, .GetRasterXSize 7] }
      { eng := 3, trace := [.GetGeoTransform 7, .GetRasterXSize 7, .GetRasterYSize 7] }
      northUp 100 100 (by decide) rfl rfl rfl).1⟩

/-- In strict mode the handler never changes the handler index. -/
theorem godalErrorHandler_handlerIdx {η : Type} (go : HostHandler η) (e : CPLErr) (n : Int)
    (msg : String) (s : Bridge η) :
    (godalErrorHandler go e n msg s).ctx.handlerIdx = s.ctx.handlerIdx := by
  unfold godalErrorHandler
  by_cases h : s.ctx.handlerIdx ≠ 0
  · simp only [if_pos h]
    split <;> rfl
  · simp only [if_neg h]
    split
    · rfl
    · split <;> rfl

/-- Strict mode, event below the threshold: the context is untouched. -/
theorem godalErrorHandler_strict_below {η : Type} (go : HostHandler η) (e : CPLErr) (n : Int)
    (msg : String) (s : Bridge η) (hmode : s.ctx.handlerIdx = 0)
    (hlow : ¬ CPLErr.CE_Warning.toInt ≤ e.toInt) :
    (godalErrorHandler go e n msg s).ctx = s.ctx := by
  have hlt : e.toInt < CPLErr.CE_Warning.toInt := not_le.mp hlow
  simp [godalErrorHandler, hmode, hlt]

/-- Strict mode, event at or above the threshold: the message is appended. -/
theorem godalErrorHandler_strict_kept {η : Type} (go : HostHandler η) (e : CPLErr) (n : Int)
    (msg : String) (s : Bridge η) (hmode : s.ctx.handlerIdx = 0)
    (hhigh : CPLErr.CE_Warning.toInt ≤ e.toInt) :
    (godalErrorHandler go e n msg s).ctx.errMessage =
      some (match s.ctx.errMessage with
            | none => msg
            | some acc => acc ++ "\n" ++ msg) := by
  have hnlt : ¬ e.toInt < CPLErr.CE_Warning.toInt := not_lt.mpr hhigh
  unfold godalErrorHandler
  simp only [hmode, ne_eq, not_true_eq_false, if_false, if_neg hnlt]
  cases h : s.ctx.errMessage <;> simp

/-- Strict mode with a message already present: the kept messages are
appended one by one, each after a newline. -/
theorem deliver_strict_some {η : Type} (go : HostHandler η) :
    ∀ (evs : List Diagnostic) (s : Bridge η) (acc : String),
      s.ctx.handlerIdx = 0 → s.ctx.errMessage = some acc →
      (deliver go evs s).ctx.errMessage =
        some (String.intercalate.go acc "\n" (keptMessages evs))
  | [], s, acc, _, hmsg => by simpa [deliver, keptMessages, String.intercalate.go] using hmsg
  | ev :: evs, s, acc, hmode, hmsg => by
    have hidx := godalErrorHandler_handlerIdx go ev.e ev.n ev.msg s
    have step : deliver go (ev :: evs) s
        = deliver go evs (godalErrorHandler go ev.e ev.n ev.msg s) := rfl
    rw [step]
    by_cases hk : CPLErr.CE_Warning.toInt ≤ ev.e.toInt
    · have hm := godalErrorHandler_strict_kept go ev.e ev.n ev.msg s hmode hk
      rw [hmsg] at hm
      rw [deliver_strict_some go evs _ _ (hidx.trans hmode) hm]
      simp [keptMessages, List.filter_cons, hk, String.intercalate.go]
    · have hc := godalErrorHandler_strict_below go ev.e ev.n ev.msg s hmode hk
      rw [deliver_strict_some go evs _ acc (hidx.trans hmode) (by rw [hc]; exact hmsg)]
      simp [keptMessages, List.filter_cons, hk]

/-- C2: in strict local mode (`handlerIdx = 0`), after any sequence of
diagnostic events is delivered to `godalErrorHandler` on a context that
starts with no message, `errMessage` is made of the messages of exactly the
events at or above `CE_Warning`, in delivery order, joined by single
newlines (no message at all when no event qualified): events below the
threshold contribute nothing and nothing is overwritten. -/
theorem godalErrorHandler_strict_accumulates {η : Type} (go : HostHandler η)
    (evs : List Diagnostic) (s : Bridge η)
    (hmode : s.ctx.handlerIdx = 0) (hmsg : s.ctx.errMessage = none) :
    (deliver go evs s).ctx.errMessage = joinedMessage (keptMessages evs) := by
  induction evs generalizing s with
  | nil => simpa [deliver, keptMessages, joinedMessage] using hmsg
  | cons ev evs ih =>
    have hidx := godalErrorHandler_handlerIdx go ev.e ev.n ev.msg s
    have step : deliver go (ev :: evs) s
        = deliver go evs (godalErrorHandler go ev.e ev.n ev.msg s) := rfl
    rw [step]
    by_cases hk : CPLErr.CE_Warning.toInt ≤ ev.e.toInt
    · have hm := godalErrorHandler_strict_kept go ev.e ev.n ev.msg s hmode hk
      rw [hmsg] at hm
      rw [deliver_strict_some go evs _ _ (hidx.trans hmode) hm]
      simp [keptMessages, joinedMessage, List.filter_cons, hk, String.intercalate]
    · have hc := godalErrorHandler_strict_below go ev.e ev.n ev.msg s hmode hk
      rw [ih _ (hidx.trans hmode) (by rw [hc]; exact hmsg)]
      simp [keptMessages, List.filter_cons, hk]

/-- Witness for C2: a debug event, a warning, a failure and another debug
event leave the two kept messages joined by one newline. -/
theorem godalErrorHandler_strict_accumulates_witness :
    (deliver (fun _ _ _ _ (h : Unit) => (0, h))
        [⟨.CE_Debug, 0, "dbg"⟩, ⟨.CE_Warning, 1, "w1"⟩, ⟨.CE_Failure, 1, "f2"⟩,
         ⟨.CE_Debug, 0, "dbg2"⟩]
        { ctx := ⟨none, 0, 0, none⟩, stderr := [], host := (), hostCalls := [] }).ctx.errMessage
      = some "w1\nf2" :=
  (godalErrorHandler_strict_accumulates (fun _ _ _ _ (h : Unit) => (0, h))
    [⟨.CE_Debug, 0, "dbg"⟩, ⟨.CE_Warning, 1, "w1"⟩, ⟨.CE_Failure, 1, "f2"⟩,
     ⟨.CE_Debug, 0, "dbg2"⟩]
    { ctx := ⟨none, 0, 0, none⟩, stderr := [], host := (), hostCalls := [] } rfl rfl).trans
    (by decide)

/-- `failed` only takes the values 0 and 1, and is 1 exactly when a message
is present or the flag is set. -/
theorem failed_eq_one_iff (ctx : cctx) :
    failed ctx = 1 ↔ (ctx.errMessage ≠ none ∨ ctx.failed ≠ 0) := by
  unfold failed
  by_cases h : ctx.errMessage ≠ none ∨ ctx.failed ≠ 0
  · simp [h]
  · simp only [if_neg h, h, iff_false]
    decide

/-- One handled event never turns a reported failure off (either mode). -/
theorem godalErrorHandler_keeps_failed {η : Type} (go : HostHandler η) (e : CPLErr) (n : Int)
    (msg : String) (s : Bridge η) (h : failed s.ctx = 1) :
    failed (godalErrorHandler go e n msg s).ctx = 1 := by
  rw [failed_eq_one_iff] at h ⊢
  unfold godalErrorHandler
  by_cases hm : s.ctx.handlerIdx ≠ 0
  · simp only [if_pos hm]
    split
    · exact Or.inr (by simp)
    · exact h
  · simp only [if_neg hm]
    split
    · exact h
    · split
      · exact Or.inl (by simp)
      · exact Or.inl (by simp)

/-- No sequence of handled events turns a reported failure off. -/
theorem deliver_keeps_failed {η : Type} (go : HostHandler η) :
    ∀ (evs : List Diagnostic) (s : Bridge η), failed s.ctx = 1 →
      failed (deliver go evs s).ctx = 1
  | [], _, h => h
  | ev :: evs, s, h =>
    deliver_keeps_failed go evs _ (godalErrorHandler_keeps_failed go ev.e ev.n ev.msg s h)

/-- C3: `failed(ctx)` returns 1 exactly when `ctx` has a message or its
failed flag set (and 0 otherwise); a context that reports failure still
reports failure after `godalErrorHandler` handles any event, whatever the
severity and the mode; and in strict mode one event at or above `CE_Warning`
makes `failed(ctx) = 1` right away and after every later sequence of events. -/
theorem failed_sticky {η : Type} (go : HostHandler η) (e : CPLErr) (n : Int) (msg : String)
    (s : Bridge η) (later : List Diagnostic) :
    (failed s.ctx = 1 ↔ (s.ctx.errMessage ≠ none ∨ s.ctx.failed ≠ 0)) ∧
    (failed s.ctx = 0 ↔ ¬ (s.ctx.errMessage ≠ none ∨ s.ctx.failed ≠ 0)) ∧
    (failed s.ctx = 1 → failed (godalErrorHandler go e n msg s).ctx = 1) ∧
    (s.ctx.handlerIdx = 0 → CPLErr.CE_Warning.toInt ≤ e.toInt →
      failed (godalErrorHandler go e n msg s).ctx = 1 ∧
      failed (deliver go later (godalErrorHandler go e n msg s)).ctx = 1) := by
  refine ⟨failed_eq_one_iff s.ctx, ?_, godalErrorHandler_keeps_failed go e n msg s, ?_⟩
  · unfold failed
    by_cases h : s.ctx.errMessage ≠ none ∨ s.ctx.failed ≠ 0
    · simp only [if_pos h, h, not_true_eq_false, iff_false]
      decide
    · simp [h]
  · intro hmode hhigh
    have hnow : failed (godalErrorHandler go e n msg s).ctx = 1 := by
      rw [failed_eq_one_iff]
      left
      rw [godalErrorHandler_strict_kept go e n msg s hmode hhigh]
      simp
    exact ⟨hnow, deliver_keeps_failed go later _ hnow⟩

/-- Witness for C3: a clean strict context handles a warning and then a debug
event and a callback-mode context that already failed handles a debug event. -/
theorem failed_sticky_witness :
    failed (⟨none, 0, 0, none⟩ : cctx) = 0 ∧
    failed (godalErrorHandler (fun _ _ _ _ (h : Unit) => (0, h)) .CE_Warning 1 "w"
      { ctx := ⟨none, 0, 0, none⟩, stderr := [], host := (), hostCalls := [] }).ctx = 1 ∧
    failed (deliver (fun _ _ _ _ (h : Unit) => (0, h)) [⟨.CE_Debug, 0, "d"⟩]
      (godalErrorHandler (fun _ _ _ _ (h : Unit) => (0, h)) .CE_Warning 1 "w"
        { ctx := ⟨none, 0, 0, none⟩, stderr := [], host := (), hostCalls := [] })).ctx = 1 ∧
    failed (godalErrorHandler (fun _ _ _ _ (h : Unit) => (0, h)) .CE_Debug 0 "d"
      { ctx := ⟨none, 5, 1, none⟩, stderr := [], host := (), hostCalls := [] }).ctx = 1 :=
  ⟨by decide,
   ((failed_sticky (fun _ _ _ _ (h : Unit) => (0, h)) .CE_Warning 1 "w"
      { ctx := ⟨none, 0, 0, none⟩, stderr := [], host := (), hostCalls := [] }
      [⟨.CE_Debug, 0, "d"⟩]).2.2.2 rfl (by decide)).1,
   ((failed_sticky (fun _ _ _ _ (h : Unit) => (0, h)) .CE_Warning 1 "w"
      { ctx := ⟨none, 0, 0, none⟩, stderr := [], host := (), hostCalls := [] }
      [⟨.CE_Debug, 0, "d"⟩]).2.2.2 rfl (by decide)).2,
   (failed_sticky (fun _ _ _ _ (h : Unit) => (0, h)) .CE_Debug 0 "d"
      { ctx := ⟨none, 5, 1, none⟩, stderr := [], host := (), hostCalls := [] } []).2.2.1
      (by decide)⟩

/-- C4: in host-callback mode (`handlerIdx != 0`) `godalErrorHandler` calls
the host callback exactly once, with the context's handler index and the
event's own severity, code and message; afterwards the failed flag is set
if and only if it was set before or the callback returned nonzero, and the
accumulated message, the handler index and the configuration options are
unchanged (nothing is written to the diagnostic stream either). -/
theorem godalErrorHandler_callback {η : Type} (go : HostHandler η) (e : CPLErr) (n : Int)
    (msg : String) (s : Bridge η) (hmode : s.ctx.handlerIdx ≠ 0) :
    (godalErrorHandler go e n msg s).hostCalls
        = s.hostCalls ++ [⟨s.ctx.handlerIdx, e, n, msg⟩] ∧
    (godalErrorHandler go e n msg s).host = (go s.ctx.handlerIdx e n msg s.host).2 ∧
    ((godalErrorHandler go e n msg s).ctx.failed ≠ 0 ↔
        (s.ctx.failed ≠ 0 ∨ (go s.ctx.handlerIdx e n msg s.host).1 ≠ 0)) ∧
    (godalErrorHandler go e n msg s).ctx.errMessage = s.ctx.errMessage ∧
    (godalErrorHandler go e n msg s).ctx.handlerIdx = s.ctx.handlerIdx ∧
    (godalErrorHandler go e n msg s).ctx.configOptions = s.ctx.configOptions ∧
    (godalErrorHandler go e n msg s).stderr = s.stderr := by
  unfold godalErrorHandler
  simp only [if_pos hmode]
  by_cases hret : (go s.ctx.handlerIdx e n msg s.host).1 ≠ 0 ∧ s.ctx.failed = 0
  · simp only [if_pos hret]
    refine ⟨trivial, trivial, ?_, trivial, trivial, trivial, trivial⟩
    simp [hret.1]
  · simp only [if_neg hret]
    refine ⟨trivial, trivial, ?_, trivial, trivial, trivial, trivial⟩
    constructor
    · intro h; exact Or.inl h
    · rintro (h | h)
      · exact h
      · intro h0
        exact hret ⟨h, h0⟩

/-- Witness for C4: handler index 3, a callback that asks for failure. -/
theorem godalErrorHandler_callback_witness :
    (godalErrorHandler (fun _ _ _ _ (h : Nat) => (1, h + 1)) .CE_Debug 7 "note"
        { ctx := ⟨some "old", 3, 0, none⟩, stderr := [], host := 0, hostCalls := [] }).hostCalls
      = [] ++ [⟨3, .CE_Debug, 7, "note"⟩] :=
  (godalErrorHandler_callback (fun _ _ _ _ (h : Nat) => (1, h + 1)) .CE_Debug 7 "note"
    { ctx := ⟨some "old", 3, 0, none⟩, stderr := [], host := 0, hostCalls := [] }
    (by decide)).1

/-- When `forceError` raises nothing, the handled run changes nothing. -/
theorem forceErrorHandled_quiet {η : Type} (go : HostHandler η) (E : Engine σ D)
    (s : Bridge η) (w : World σ D) (h : ¬ (s.ctx.errMessage = none ∧ s.ctx.failed = 0)) :
    forceErrorHandled go E s w = (s, w) := by
  simp [forceErrorHandled, forceError, h, raisedSince, deliver]

/-- When `forceError` raises its diagnostic, the handled run is one call of
the handler on `(CE_Failure, CPLE_AppDefined, "unknown error")`. -/
theorem forceErrorHandled_raise {η : Type} (go : HostHandler η) (E : Engine σ D)
    (s : Bridge η) (w : World σ D) (h : s.ctx.errMessage = none ∧ s.ctx.failed = 0) :
    forceErrorHandled go E s w =
      (godalErrorHandler go .CE_Failure CPLE_AppDefined "unknown error" s,
       (call E (.CPLError .CE_Failure CPLE_AppDefined "unknown error") w).2) := by
  simp [forceErrorHandled, forceError, h, raisedSince, deliver, call,
    EngineCall.diagnostic?]

/-- C5 fails as stated: a strict-mode context whose failed flag is set and
that has no message is left by `forceError` failed with no message (the
guard of `forceError` requires `failed == 0`), and a context whose message
is present but empty keeps its empty message. -/
theorem forceError_leaves_flag_without_message :
    failed (forceErrorHandled (fun _ _ _ _ (h : Unit) => (0, h))
        (sampleEngine .CE_None northUp .CE_None 7)
        { ctx := ⟨none, 0, 1, none⟩, stderr := [], host := (), hostCalls := [] }
        world0).1.ctx = 1 ∧
    (forceErrorHandled (fun _ _ _ _ (h : Unit) => (0, h))
        (sampleEngine .CE_None northUp .CE_None 7)
        { ctx := ⟨none, 0, 1, none⟩, stderr := [], host := (), hostCalls := [] }
        world0).1.ctx.errMessage = none ∧
    (forceErrorHandled (fun _ _ _ _ (h : Unit) => (0, h))
        (sampleEngine .CE_None northUp .CE_None 7)
        { ctx := ⟨some "", 0, 0, none⟩, stderr := [], host := (), hostCalls := [] }
        world0).1.ctx.errMessage = some "" := by
  refine ⟨?_, ?_, ?_⟩
  · rw [forceErrorHandled_quiet _ _ _ _ (by decide)]
    decide
  · rw [forceErrorHandled_quiet _ _ _ _ (by decide)]
  · rw [forceErrorHandled_quiet _ _ _ _ (by decide)]

/-- C5, amended: in strict local mode (`handlerIdx = 0`), running
`forceError(ctx)` with its diagnostic delivered to `godalErrorHandler` on
that context gives: (a) from no message and `failed = 0`, exactly one
`CPLError(CE_Failure, CPLE_AppDefined, "unknown error")` is raised, the
message becomes exactly "unknown error" and the context reports failure;
(b) from a context that already has a message, or whose failed flag is
already set, no diagnostic is raised and context and engine are unchanged;
(c) hence from every context with `failed = 0` whose message, if present, is
non-empty, the context afterwards reports failure with a non-empty message. -/
theorem forceError_strict {η : Type} (go : HostHandler η) (E : Engine σ D)
    (s : Bridge η) (w : World σ D) (hmode : s.ctx.handlerIdx = 0) :
    (s.ctx.errMessage = none → s.ctx.failed = 0 →
      (forceErrorHandled go E s w).2.trace
          = w.trace ++ [.CPLError .CE_Failure CPLE_AppDefined "unknown error"] ∧
      (forceErrorHandled go E s w).1.ctx.errMessage = some "unknown error" ∧
      failed (forceErrorHandled go E s w).1.ctx = 1) ∧
    ((s.ctx.errMessage ≠ none ∨ s.ctx.failed ≠ 0) →
      forceErrorHandled go E s w = (s, w) ∧ forceError E s.ctx w = w) ∧
    (s.ctx.failed = 0 → s.ctx.errMessage ≠ some "" →
      failed (forceErrorHandled go E s w).1.ctx = 1 ∧
      ∃ m, (forceErrorHandled go E s w).1.ctx.errMessage = some m ∧ m ≠ "") := by
  have raise : s.ctx.errMessage = none → s.ctx.failed = 0 →
      (forceErrorHandled go E s w).2.trace
          = w.trace ++ [.CPLError .CE_Failure CPLE_AppDefined "unknown error"] ∧
      (forceErrorHandled go E s w).1.ctx.errMessage = some "unknown error" ∧
      failed (forceErrorHandled go E s w).1.ctx = 1 := by
    intro hm hf
    have hk := godalErrorHandler_strict_kept go .CE_Failure CPLE_AppDefined "unknown error" s
      hmode (by decide)
    rw [hm] at hk
    rw [forceErrorHandled_raise go E s w ⟨hm, hf⟩]
    refine ⟨rfl, hk, ?_⟩
    rw [failed_eq_one_iff]
    left
    simp only [hk]
    simp
  refine ⟨raise, ?_, ?_⟩
  · intro h
    have hq : ¬ (s.ctx.errMessage = none ∧ s.ctx.failed = 0) := by
      rintro ⟨h1, h2⟩
      rcases h with h | h
      · exact h h1
      · exact h h2
    refine ⟨forceErrorHandled_quiet go E s w hq, ?_⟩
    simp [forceError, hq]
  · intro hf hne
    cases hm : s.ctx.errMessage with
    | none =>
      obtain ⟨_, h2, h3⟩ := raise hm hf
      exact ⟨h3, "unknown error", h2, by decide⟩
    | some m =>
      have hq : ¬ (s.ctx.errMessage = none ∧ s.ctx.failed = 0) := by simp [hm]
      rw [forceErrorHandled_quiet go E s w hq]
      refine ⟨(failed_eq_one_iff _).2 (Or.inl (by simp [hm])), m, hm, ?_⟩
      intro h
      exact hne (by rw [hm, h])

/-- Witness for C5 (amended): a clean strict context gets "unknown error". -/
theorem forceError_strict_witness :
    (forceErrorHandled (fun _ _ _ _ (h : Unit) => (0, h))
        (sampleEngine .CE_None northUp .CE_None 7)
        { ctx := ⟨none, 0, 0, none⟩, stderr := [], host := (), hostCalls := [] }
        world0).1.ctx.errMessage = some "unknown error" :=
  ((forceError_strict (fun _ _ _ _ (h : Unit) => (0, h))
      (sampleEngine .CE_None northUp .CE_None 7)
      { ctx := ⟨none, 0, 0, none⟩, stderr := [], host := (), hostCalls := [] }
      world0 rfl).1 rfl rfl).2.1

/-- The collecting loop of `GOrioBuildVRT` adds nothing when every entry it
visits is null. -/
theorem collect_all_null (a : Nat → Handle) :
    ∀ (l : List Nat) (acc : List Handle), (∀ i ∈ l, a i = 0) →
      l.foldl (fun srcDatasets i =>
        if a i ≠ 0 then srcDatasets ++ [a i] else srcDatasets) acc = acc
  | [], _, _ => rfl
  | i :: l, acc, h => by
    have hi : a i = 0 := h i (List.mem_cons_self i l)
    simp only [List.foldl_cons, hi, ne_eq, not_true_eq_false, if_false]
    exact collect_all_null a l acc (fun j hj => h j (List.mem_cons_of_mem i hj))

/-- C6: `GOrioBuildVRT` returns null and makes no engine call at all (so the
VRT builder is never asked for a zero-source VRT) whenever the output
filename is null, `count <= 0`, the handle array is null, or the first
`count` entries of the handle array are all null. -/
theorem GOrioBuildVRT_rejects (E : Engine σ D) (filename : CString) (count : Int)
    (datasets : Option (Nat → Handle)) (options : Options) (w : World σ D)
    (h : filename = none ∨ count ≤ 0 ∨ datasets = none ∨
         ∃ a, datasets = some a ∧ ∀ i : Nat, (i : Int) < count → a i = 0) :
    GOrioBuildVRT E filename count datasets options w = (0, w) := by
  cases datasets with
  | none => rfl
  | some a =>
    unfold GOrioBuildVRT
    by_cases hpre : filename = none ∨ count ≤ 0
    · simp only [if_pos hpre]
    · simp only [if_neg hpre]
      have hall : ∀ i : Nat, (i : Int) < count → a i = 0 := by
        rcases h with h | h | h | ⟨b, hb, hall⟩
        · exact absurd (Or.inl h) hpre
        · exact absurd (Or.inr h) hpre
        · exact absurd h (by simp)
        · cases hb
          exact hall
      have hempty := collect_all_null a (List.range count.toNat) []
        (fun i hi => hall i (by have := List.mem_range.mp hi; omega))
      simp only [hempty, List.isEmpty_nil, if_true]

/-- Witness for C6: three null handles. -/
theorem GOrioBuildVRT_rejects_witness :
    GOrioBuildVRT (sampleEngine .CE_None northUp .CE_None 7) (some "out.vrt") 3
      (some (fun _ => 0)) none world0 = (0, world0) :=
  GOrioBuildVRT_rejects (sampleEngine .CE_None northUp .CE_None 7) (some "out.vrt") 3
    (some (fun _ => 0)) none world0
    (Or.inr (Or.inr (Or.inr ⟨fun _ => 0, rfl, fun _ _ => rfl⟩)))

/-- C7: for every target CRS and options value, `GOrioReproject` with a null
source handle returns null and makes no engine call: the engine state and
the trace of engine calls (diagnostics included) are unchanged. -/
theorem GOrioReproject_null_src [OfScientific D] (E : Engine σ D) (dst_crs : CString)
    (options : Options) (w : World σ D) :
    GOrioReproject E 0 dst_crs options w = (0, w) := by
  simp [GOrioReproject]

/-- C8 fails on the code: a null filename given to `GOrioOpenDataset` is
handed to the engine's `GDALOpen`; likewise a null destination reaches
`CreateCopy` (GOrioCreateCopy), `Create` (GOrioCreate) and `GDALTranslate`
(GOrioConvertToImage), and a null target CRS reaches
`GDALAutoCreateWarpedVRT` through `GOrioWarp`, although the sibling
`GOrioReproject` rejects it. -/
theorem null_filename_reaches_engine :
    (GOrioOpenDataset (sampleEngine .CE_None northUp .CE_None 7) none world0).2.trace
      = [.GDALAllRegister, .GDALOpen none .GA_ReadOnly] ∧
    (GOrioCreateCopy (sampleEngine .CE_None northUp .CE_None 7) 7 none none world0).2.trace
      = [.GetDriverByName "GTiff", .CreateCopy 7 none 7 0 none 0 0] ∧
    (GOrioCreate (sampleEngine .CE_None northUp .CE_None 7) none 10 10 1 .GDT_Float32 none
        world0).2.trace
      = [.GetDriverByName "GTiff", .Create 7 none 10 10 1 .GDT_Float32 none] ∧
    (GOrioConvertToImage (sampleEngine .CE_None northUp .CE_None 7) 7 none (some "PNG") none
        world0).2.trace
      = [.GDALTranslateOptionsNew none 0, .GDALTranslate none 7 7 0, .GDALClose 7,
         .GDALTranslateOptionsFree 7] ∧
    (GOrioWarp (sampleEngine .CE_None northUp .CE_None 7) 7 none none world0).2.trace
      = [.GDALAutoCreateWarpedVRT 7 none none .GRA_Bilinear 0.0 0] ∧
    GOrioReproject (sampleEngine .CE_None northUp .CE_None 7) 7 none none world0
      = (0, world0) :=
  ⟨rfl, rfl, rfl, rfl, rfl, rfl⟩

/-- C9 fails as stated: without a geotransform `GOrioGetDatasetBounds`
returns 1, not `GORIO_ERROR_BOUNDS` (2); a rejected read returns 1, not
`GORIO_ERROR_READ` (5); a failed write returns 1, not `GORIO_ERROR_WRITE`
(6); a null band returns 1, not `GORIO_ERROR_INVALID_PARAMS` (10). -/
theorem return_codes_are_not_named :
    (GOrioGetDatasetBounds (sampleEngine .CE_Failure northUp .CE_Failure 7) 7
        (some { left := 9, top := 9, right := 9, bottom := 9 }) world0).1 = 1 ∧
    GOrioError.GORIO_ERROR_BOUNDS.toInt = 2 ∧
    (GOrioReadBandFloat32 (sampleEngine .CE_Failure northUp .CE_Failure 7) 7 0 0 200 200 8
        world0).1 = 1 ∧
    GOrioError.GORIO_ERROR_READ.toInt = 5 ∧
    (GOrioWriteBand (sampleEngine .CE_Failure northUp .CE_Failure 7) 7 0 0 10 10 8 .GDT_Int32
        world0).1 = 1 ∧
    GOrioError.GORIO_ERROR_WRITE.toInt = 6 ∧
    (GOrioReadBandInt32 (sampleEngine .CE_None northUp .CE_None 7) 0 0 0 10 10 8
        world0).1 = 1 ∧
    GOrioError.GORIO_ERROR_INVALID_PARAMS.toInt = 10 :=
  ⟨rfl, rfl, rfl, rfl, rfl, rfl, rfl, rfl⟩

/-- C9, amended: the integer return code of each of the eleven
int-returning operations is 0 on success and nonzero on failure, the
nonzero value being fixed as follows rather than by the `GOrioError`
enumerators, which no operation uses.  Ten operations return the literal 1
on every failure: `GOrioGetDatasetBounds` (handle or
`Bounds` pointer null, or geotransform query not `CE_None`), the three
`GOrioReadBand*` operations and `GOrioWriteBand` (band or buffer null, or
`RasterIO` not `CE_None`), `GOrioSetNoDataValue` (band null or engine
failure), `GOrioSetGeoTransform` (handle or array null, or engine failure),
`GOrioSetProjection` (handle or string null, or engine failure),
`GOrioGetBlockSize` (band or an out-pointer null) and `GOrioConvertToImage`
(dataset null, translate options not created, or no translated dataset).
`GOrioGetGeoTransform` returns 1 when the handle or the array is null and
otherwise the engine's `CPLErr` value itself: 0 exactly for `CE_None`, and
1 to 4 for `CE_Debug` to `CE_Fatal`. -/
theorem return_codes_by_operation [Add D] [Mul D] [IntCast D] (E : Engine σ D)
    (w : World σ D) (dataset band buffer transform : Handle) (bounds : Option (Bounds D))
    (xoff yoff xsize ysize : Int) (dtype : GDALDataType) (nodata : D)
    (outputFilename format wkt : CString) (options : Options)
    (pxsize pysize : Option Int) (ptransform : Option (Fin 6 → D)) :
    (GOrioGetDatasetBounds E dataset bounds w).1 =
      (if dataset = 0 ∨ bounds.isNone ∨
          (call E (.GetGeoTransform dataset) w).1.1 ≠ CPLErr.CE_None then 1 else 0) ∧
    (GOrioReadBandFloat32 E band xoff yoff xsize ysize buffer w).1 =
      (if band = 0 ∨ buffer = 0 ∨
          (call E (EngineCall.RasterIO band .GF_Read xoff yoff xsize ysize buffer xsize ysize
            .GDT_Float32 0 0) w).1 ≠ CPLErr.CE_None then 1 else 0) ∧
    (GOrioReadBandFloat64 E band xoff yoff xsize ysize buffer w).1 =
      (if band = 0 ∨ buffer = 0 ∨
          (call E (EngineCall.RasterIO band .GF_Read xoff yoff xsize ysize buffer xsize ysize
            .GDT_Float64 0 0) w).1 ≠ CPLErr.CE_None then 1 else 0) ∧
    (GOrioReadBandInt32 E band xoff yoff xsize ysize buffer w).1 =
      (if band = 0 ∨ buffer = 0 ∨
          (call E (EngineCall.RasterIO band .GF_Read xoff yoff xsize ysize buffer xsize ysize
            .GDT_Int32 0 0) w).1 ≠ CPLErr.CE_None then 1 else 0) ∧
    (GOrioWriteBand E band xoff yoff xsize ysize buffer dtype w).1 =
      (if band = 0 ∨ buffer = 0 ∨
          (call E (EngineCall.RasterIO band .GF_Write xoff yoff xsize ysize buffer xsize ysize
            dtype 0 0) w).1 ≠ CPLErr.CE_None then 1 else 0) ∧
    (GOrioSetNoDataValue E band nodata w).1 =
      (if band = 0 ∨ (call E (.SetNoDataValue band nodata) w).1 ≠ CPLErr.CE_None
        then 1 else 0) ∧
    (GOrioConvertToImage E dataset outputFilename format options w).1 =
      (if dataset = 0 ∨ (call E (.GDALTranslateOptionsNew options 0) w).1 = 0 ∨
          (call E (.GDALTranslate outputFilename dataset
              (call E (.GDALTranslateOptionsNew options 0) w).1 0)
            (call E (.GDALTranslateOptionsNew options 0) w).2).1 = 0 then 1 else 0) ∧
    (GOrioSetGeoTransform E dataset transform w).1 =
      (if dataset = 0 ∨ transform = 0 ∨
          (call E (.SetGeoTransform dataset transform) w).1 ≠ CPLErr.CE_None
        then 1 else 0) ∧
    (GOrioSetProjection E dataset wkt w).1 =
      (if dataset = 0 ∨ wkt = none ∨
          (call E (.SetProjection dataset wkt) w).1 ≠ CPLErr.CE_None then 1 else 0) ∧
    (GOrioGetBlockSize E band pxsize pysize w).1 =
      (if band = 0 ∨ pxsize = none ∨ pysize = none then 1 else 0) ∧
    (GOrioGetGeoTransform E dataset ptransform w).1 =
      (if dataset = 0 ∨ ptransform.isNone then 1
        else (call E (.GetGeoTransform dataset) w).1.1.toInt) ∧
    (∀ e : CPLErr, (e.toInt = 0 ↔ e = CPLErr.CE_None) ∧ 0 ≤ e.toInt ∧ e.toInt ≤ 4) := by
  refine ⟨?_, ?_, ?_, ?_, ?_, ?_, ?_, ?_, ?_, ?_, ?_, ?_⟩
  · unfold GOrioGetDatasetBounds
    by_cases hd : dataset = 0
    · simp [hd]
    · cases bounds with
      | none => simp [hd]
      | some b =>
        by_cases hg : (call E (.GetGeoTransform dataset) w).1.1 = CPLErr.CE_None
        · simp [hd, hg]
        · simp [hd, hg]
  · unfold GOrioReadBandFloat32
    by_cases h1 : band = 0 <;> by_cases h2 : buffer = 0 <;> simp [h1, h2]
  · unfold GOrioReadBandFloat64
    by_cases h1 : band = 0 <;> by_cases h2 : buffer = 0 <;> simp [h1, h2]
  · unfold GOrioReadBandInt32
    by_cases h1 : band = 0 <;> by_cases h2 : buffer = 0 <;> simp [h1, h2]
  · unfold GOrioWriteBand
    by_cases h1 : band = 0 <;> by_cases h2 : buffer = 0 <;> simp [h1, h2]
  · unfold GOrioSetNoDataValue
    by_cases h1 : band = 0 <;> simp [h1]
  · unfold GOrioConvertToImage
    by_cases h1 : dataset = 0
    · simp [h1]
    · by_cases h2 : (call E (.GDALTranslateOptionsNew options 0) w).1 = 0
      · simp [h1, h2]
      · by_cases h3 : (call E (.GDALTranslate outputFilename dataset
              (call E (.GDALTranslateOptionsNew options 0) w).1 0)
            (call E (.GDALTranslateOptionsNew options 0) w).2).1 = 0
        · simp [h1, h2, h3]
        · simp [h1, h2, h3]
  · unfold GOrioSetGeoTransform
    by_cases h1 : dataset = 0 <;> by_cases h2 : transform = 0 <;> simp [h1, h2]
  · unfold GOrioSetProjection
    by_cases h1 : dataset = 0 <;> by_cases h2 : wkt = none <;> simp [h1, h2]
  · unfold GOrioGetBlockSize
    by_cases h : band = 0 ∨ pxsize = none ∨ pysize = none
    · simp only [if_pos h]
    · simp only [if_neg h]
  · unfold GOrioGetGeoTransform
    by_cases h : dataset = 0 ∨ ptransform.isNone
    · simp only [if_pos h]
    · simp only [if_neg h]
  · intro e
    cases e <;> simp [CPLErr.toInt]

/-- C10: `GOrioGetDatasetBounds` returns 0 if and only if the dataset handle
is non-null, the `Bounds` pointer is non-null and the engine answers the
geotransform query with `CE_None`; in every other case it returns a nonzero
code and the caller's `Bounds` value is left as it was. -/
theorem GOrioGetDatasetBounds_zero_iff [Add D] [Mul D] [IntCast D] (E : Engine σ D)
    (dataset : Handle) (bounds : Option (Bounds D)) (w : World σ D) :
    ((GOrioGetDatasetBounds E dataset bounds w).1 = 0 ↔
      (dataset ≠ 0 ∧ bounds ≠ none ∧
        (call E (.GetGeoTransform dataset) w).1.1 = CPLErr.CE_None)) ∧
    ((GOrioGetDatasetBounds E dataset bounds w).1 ≠ 0 →
      (GOrioGetDatasetBounds E dataset bounds w).2.1 = bounds) := by
  unfold GOrioGetDatasetBounds
  by_cases hd : dataset = 0
  · simp [hd]
  · cases bounds with
    | none => simp [hd]
    | some b =>
      by_cases hg : (call E (.GetGeoTransform dataset) w).1.1 = CPLErr.CE_None
      · simp [hd, hg]
      · simp [hd, hg]

/-- Witness for C10: with no geotransform the code is nonzero and the
caller's `Bounds` keeps its four values. -/
theorem GOrioGetDatasetBounds_zero_iff_witness :
    (GOrioGetDatasetBounds (sampleEngine .CE_Failure northUp .CE_None 7) 7
        (some { left := 1, top := 2, right := 3, bottom := 4 }) world0).2.1
      = some { left := 1, top := 2, right := 3, bottom := 4 } :=
  (GOrioGetDatasetBounds_zero_iff (sampleEngine .CE_Failure northUp .CE_None 7) 7
    (some { left := 1, top := 2, right := 3, bottom := 4 }) world0).2 (by decide)

/-- C11: with a `success` pointer to report through, `GOrioGetNoDataValue`
on a non-null band returns the engine's value unchanged and writes the
engine's flag to `*success`: 0 (present = false) when the band has no
sentinel configured, whatever value the engine returns alongside, nonzero
(present = true) when one is configured, a sentinel of 0 included; on a
null band it writes 0 (present = false), returns 0 and calls no engine. -/
theorem GOrioGetNoDataValue_reports [IntCast D] (E : Engine σ D) (band : Handle)
    (old : Int) (w : World σ D) :
    (band ≠ 0 →
      GOrioGetNoDataValue E band (some old) w =
        ((call E (.GetNoDataValue band) w).1.1, some (call E (.GetNoDataValue band) w).1.2,
         (call E (.GetNoDataValue band) w).2)) ∧
    (band ≠ 0 → (call E (.GetNoDataValue band) w).1.2 = 0 →
      (GOrioGetNoDataValue E band (some old) w).2.1 = some 0) ∧
    (band ≠ 0 → (call E (.GetNoDataValue band) w).1.2 ≠ 0 →
      (GOrioGetNoDataValue E band (some old) w).1 = (call E (.GetNoDataValue band) w).1.1 ∧
      ∃ p : Int, (GOrioGetNoDataValue E band (some old) w).2.1 = some p ∧ p ≠ 0) ∧
    GOrioGetNoDataValue E 0 (some old) w = (((0 : Int) : D), some 0, w) := by
  have key : band ≠ 0 →
      GOrioGetNoDataValue E band (some old) w =
        ((call E (.GetNoDataValue band) w).1.1, some (call E (.GetNoDataValue band) w).1.2,
         (call E (.GetNoDataValue band) w).2) := by
    intro hb
    simp [GOrioGetNoDataValue, hb]
  refine ⟨key, ?_, ?_, ?_⟩
  · intro hb h0
    rw [key hb, ← h0]
  · intro hb h1
    rw [key hb]
    exact ⟨rfl, _, rfl, h1⟩
  · simp [GOrioGetNoDataValue]

/-- Witness for C11: a configured sentinel of 0 is reported as present with
value 0, and a band without sentinel as absent although the engine hands
back the value -9999. -/
theorem GOrioGetNoDataValue_reports_witness :
    GOrioGetNoDataValue (probeEngine 70 0 1) 70 (some 5) world0
      = (0, some 1, { eng := 1, trace := [.GetNoDataValue 70] }) ∧
    (GOrioGetNoDataValue (probeEngine 70 (-9999) 0) 70 (some 5) world0).2.1 = some 0 :=
  ⟨(GOrioGetNoDataValue_reports (probeEngine 70 0 1) 70 5 world0).1 (by decide),
   (GOrioGetNoDataValue_reports (probeEngine 70 (-9999) 0) 70 5 world0).2.1 (by decide) rfl⟩

/-- C12 fails as stated: a dataset is opened (handle 7), its band 1 is
looked up (handle 70), the dataset is closed, and a float32 read and a write
on the band handle are then neither rejected nor no-ops: both return 0 and
the engine's `RasterIO` receives the band handle 70 after `GDALClose(7)`. -/
theorem read_after_close_reaches_engine :
    GOrioOpenDataset (probeEngine 70 0 0) (some "a.tif") world0
      = (7, { eng := 2, trace := [.GDALAllRegister, .GDALOpen (some "a.tif") .GA_ReadOnly] }) ∧
    bandThenClose (probeEngine 70 0 0) 7 1
        { eng := 2, trace := [.GDALAllRegister, .GDALOpen (some "a.tif") .GA_ReadOnly] }
      = (70, { eng := 4, trace := [.GDALAllRegister, .GDALOpen (some "a.tif") .GA_ReadOnly,
                                   .GetRasterBand 7 1, .GDALClose 7] }) ∧
    GOrioReadBandFloat32 (probeEngine 70 0 0) 70 0 0 10 10 8
        { eng := 4, trace := [.GDALAllRegister, .GDALOpen (some "a.tif") .GA_ReadOnly,
                              .GetRasterBand 7 1, .GDALClose 7] }
      = (0, { eng := 5, trace := [.GDALAllRegister, .GDALOpen (some "a.tif") .GA_ReadOnly,
                                  .GetRasterBand 7 1, .GDALClose 7,
                                  EngineCall.RasterIO 70 .GF_Read 0 0 10 10 8 10 10
                                    .GDT_Float32 0 0] }) ∧
    GOrioWriteBand (probeEngine 70 0 0) 70 0 0 10 10 8 .GDT_Float32
        { eng := 4, trace := [.GDALAllRegister, .GDALOpen (some "a.tif") .GA_ReadOnly,
                              .GetRasterBand 7 1, .GDALClose 7] }
      = (0, { eng := 5, trace := [.GDALAllRegister, .GDALOpen (some "a.tif") .GA_ReadOnly,
                                  .GetRasterBand 7 1, .GDALClose 7,
                                  EngineCall.RasterIO 70 .GF_Write 0 0 10 10 8 10 10
                                    .GDT_Float32 0 0] }) :=
  ⟨rfl, rfl, rfl, rfl⟩

/-- C12, amended: after a band handle is obtained from a live dataset `d`
and `d` is closed (the engine having received `GetRasterBand(d, n)` and then
`GDALClose(d)`), a read or write with a null band handle or a null buffer is
rejected with code 1 and no engine call, and a read or write with a non-null
band handle and buffer is forwarded to the engine's `RasterIO` with that band
handle, exactly as before the close, the return code being 0 when the engine
answers `CE_None` and 1 otherwise: the adapter keeps no record of closed
datasets. -/
theorem read_write_after_close (E : Engine σ D) (d : Handle) (band_num : Int)
    (xoff yoff xsize ysize : Int) (buffer : Handle) (dtype : GDALDataType) (w : World σ D)
    (band : Handle) (wc : World σ D) (hd : d ≠ 0)
    (hclose : bandThenClose E d band_num w = (band, wc)) :
    wc.trace = w.trace ++ [.GetRasterBand d band_num, .GDALClose d] ∧
    ((band = 0 ∨ buffer = 0) →
      GOrioReadBandFloat32 E band xoff yoff xsize ysize buffer wc = (1, wc) ∧
      GOrioReadBandFloat64 E band xoff yoff xsize ysize buffer wc = (1, wc) ∧
      GOrioReadBandInt32 E band xoff yoff xsize ysize buffer wc = (1, wc) ∧
      GOrioWriteBand E band xoff yoff xsize ysize buffer dtype wc = (1, wc)) ∧
    (band ≠ 0 → buffer ≠ 0 →
      GOrioReadBandFloat32 E band xoff yoff xsize ysize buffer wc =
        ((if (call E (EngineCall.RasterIO band .GF_Read xoff yoff xsize ysize buffer xsize
              ysize .GDT_Float32 0 0) wc).1 = CPLErr.CE_None then 0 else 1),
         (call E (EngineCall.RasterIO band .GF_Read xoff yoff xsize ysize buffer xsize
              ysize .GDT_Float32 0 0) wc).2) ∧
      GOrioReadBandFloat64 E band xoff yoff xsize ysize buffer wc =
        ((if (call E (EngineCall.RasterIO band .GF_Read xoff yoff xsize ysize buffer xsize
              ysize .GDT_Float64 0 0) wc).1 = CPLErr.CE_None then 0 else 1),
         (call E (EngineCall.RasterIO band .GF_Read xoff yoff xsize ysize buffer xsize
              ysize .GDT_Float64 0 0) wc).2) ∧
      GOrioReadBandInt32 E band xoff yoff xsize ysize buffer wc =
        ((if (call E (EngineCall.RasterIO band .GF_Read xoff yoff xsize ysize buffer xsize
              ysize .GDT_Int32 0 0) wc).1 = CPLErr.CE_None then 0 else 1),
         (call E (EngineCall.RasterIO band .GF_Read xoff yoff xsize ysize buffer xsize
              ysize .GDT_Int32 0 0) wc).2) ∧
      GOrioWriteBand E band xoff yoff xsize ysize buffer dtype wc =
        ((if (call E (EngineCall.RasterIO band .GF_Write xoff yoff xsize ysize buffer xsize
              ysize dtype 0 0) wc).1 = CPLErr.CE_None then 0 else 1),
         (call E (EngineCall.RasterIO band .GF_Write xoff yoff xsize ysize buffer xsize
              ysize dtype 0 0) wc).2) ∧
      (GOrioReadBandFloat32 E band xoff yoff xsize ysize buffer wc).2.trace =
        w.trace ++ [.GetRasterBand d band_num, .GDALClose d,
          EngineCall.RasterIO band .GF_Read xoff yoff xsize ysize buffer xsize ysize
            .GDT_Float32 0 0]) := by
  have htrace : wc.trace = w.trace ++ [.GetRasterBand d band_num, .GDALClose d] := by
    have h2 := congrArg Prod.snd hclose
    simp only [bandThenClose, GOrioGetRasterBand, GOrioCloseDataset, if_neg hd, ne_eq,
      not_false_eq_true, if_true, call] at h2
    rw [← h2]
    simp [hd]
  refine ⟨htrace, ?_, ?_⟩
  · intro h
    simp [GOrioReadBandFloat32, GOrioReadBandFloat64, GOrioReadBandInt32, GOrioWriteBand, h]
  · intro hb hbuf
    have hno : ¬ (band = 0 ∨ buffer = 0) := by
      rintro (h | h)
      · exact hb h
      · exact hbuf h
    refine ⟨?_, ?_, ?_, ?_, ?_⟩
    · simp [GOrioReadBandFloat32, hno]
    · simp [GOrioReadBandFloat64, hno]
    · simp [GOrioReadBandInt32, hno]
    · simp [GOrioWriteBand, hno]
    · simp [GOrioReadBandFloat32, hno, call, htrace]

/-- Witness for C12 (amended): dataset 7, band handle 70, read after close. -/
theorem read_write_after_close_witness :
    bandThenClose (probeEngine 70 0 0) 7 1
        { eng := 2, trace := [.GDALAllRegister, .GDALOpen (some "a.tif") .GA_ReadOnly] }
      = (70, { eng := 4, trace := [.GDALAllRegister, .GDALOpen (some "a.tif") .GA_ReadOnly,
                                   .GetRasterBand 7 1, .GDALClose 7] }) ∧
    GOrioReadBandFloat32 (probeEngine 70 0 0) 70 0 0 10 10 8
        { eng := 4, trace := [.GDALAllRegister, .GDALOpen (some "a.tif") .GA_ReadOnly,
                              .GetRasterBand 7 1, .GDALClose 7] }
      = (0, { eng := 5, trace := [.GDALAllRegister, .GDALOpen (some "a.tif") .GA_ReadOnly,
                                  .GetRasterBand 7 1, .GDALClose 7,
                                  EngineCall.RasterIO 70 .GF_Read 0 0 10 10 8 10 10
                                    .GDT_Float32 0 0] }) :=
  ⟨rfl,
   ((read_write_after_close (probeEngine 70 0 0) 7 1 0 0 10 10 8 .GDT_Float32
      { eng := 2, trace := [.GDALAllRegister, .GDALOpen (some "a.tif") .GA_ReadOnly] }
      70
      { eng := 4, trace := [.GDALAllRegister, .GDALOpen (some "a.tif") .GA_ReadOnly,
                            .GetRasterBand 7 1, .GDALClose 7] }
      (by decide) rfl).2.2 (by decide) (by decide)).1⟩

/-- Outside a null target CRS on a non-null source, `GOrioReproject` and
`GOrioWarp` reject the same inputs and issue the same warp request up to the
maximum error. -/
theorem reproject_warp_agree [OfScientific D] (E : Engine σ D) (src : Handle)
    (dst_crs : CString) (options : Options) (w : World σ D) :
    (src = 0 →
      GOrioReproject E src dst_crs options w = (0, w) ∧
      GOrioWarp E src dst_crs options w = (0, w)) ∧
    (src ≠ 0 → dst_crs ≠ none →
      GOrioReproject E src dst_crs options w =
        call E (.GDALAutoCreateWarpedVRT src none dst_crs .GRA_Bilinear 5.0 0) w ∧
      GOrioWarp E src dst_crs options w =
        call E (.GDALAutoCreateWarpedVRT src none dst_crs .GRA_Bilinear 0.0 0) w) := by
  constructor
  · intro h
    simp [GOrioReproject, GOrioWarp, h]
  · intro hs hc
    simp [GOrioReproject, GOrioWarp, hs, hc]

/-- C13 fails on the code: for a non-null source and a null target CRS
`GOrioReproject` returns null without any engine call, while `GOrioWarp`
hands the null target CRS to `GDALAutoCreateWarpedVRT` and returns the
engine's dataset; with a non-null target CRS the two requests differ in the
maximum error only (5.0 against 0.0). -/
theorem reproject_warp_differ_on_null_crs :
    GOrioReproject (sampleEngine .CE_None northUp .CE_None 7) 7 none none world0
      = (0, world0) ∧
    GOrioWarp (sampleEngine .CE_None northUp .CE_None 7) 7 none none world0
      = (7, { eng := 1,
              trace := [.GDALAutoCreateWarpedVRT 7 none none .GRA_Bilinear 0.0 0] }) ∧
    GOrioReproject (sampleEngine .CE_None northUp .CE_None 7) 7 (some "EPSG:4326") none world0
      = (7, { eng := 1,
              trace := [.GDALAutoCreateWarpedVRT 7 none (some "EPSG:4326")
                          .GRA_Bilinear 5.0 0] }) ∧
    GOrioWarp (sampleEngine .CE_None northUp .CE_None 7) 7 (some "EPSG:4326") none world0
      = (7, { eng := 1,
              trace := [.GDALAutoCreateWarpedVRT 7 none (some "EPSG:4326")
                          .GRA_Bilinear 0.0 0] }) :=
  ⟨rfl, rfl, rfl, rfl⟩

/-- The three operations that do hand the caller's options to the engine:
`GOrioCreateCopy` and `GOrioCreate` (once the driver is found) and
`GOrioConvertToImage` (to `GDALTranslateOptionsNew`). -/
theorem options_forwarded (E : Engine σ D) (src : Handle) (filename : CString)
    (width height bands : Int) (datatype : GDALDataType) (format : CString)
    (options : Options) (w : World σ D) :
    (src ≠ 0 → (call E (.GetDriverByName "GTiff") w).1 ≠ 0 →
      GOrioCreateCopy E src filename options w =
        call E (.CreateCopy (call E (.GetDriverByName "GTiff") w).1 filename src 0 options 0 0)
          (call E (.GetDriverByName "GTiff") w).2) ∧
    ((call E (.GetDriverByName "GTiff") w).1 ≠ 0 →
      GOrioCreate E filename width height bands datatype options w =
        call E (.Create (call E (.GetDriverByName "GTiff") w).1 filename width height bands
            datatype options)
          (call E (.GetDriverByName "GTiff") w).2) ∧
    (src ≠ 0 →
      ∃ rest, (GOrioConvertToImage E src filename format options w).2.trace =
        w.trace ++ .GDALTranslateOptionsNew options 0 :: rest) := by
  refine ⟨?_, ?_, ?_⟩
  · intro hs hd
    simp [GOrioCreateCopy, hs, hd]
  · intro hd
    simp [GOrioCreate, hd]
  · intro hs
    unfold GOrioConvertToImage
    simp only [if_neg hs]
    split
    · exact ⟨_, by simp [call]; rfl⟩
    · split
      · exact ⟨_, by simp [call]; rfl⟩
      · exact ⟨_, by simp [call]; rfl⟩

/-- C14 fails on the code: given the options list `["A=1", "B=2"]`,
`GOrioReproject`, `GOrioWarp` and `GOrioBuildVRT` call the engine with a null
options argument; `GOrioCreateCopy`, `GOrioCreate` and `GOrioConvertToImage`
hand the list over unchanged. -/
theorem options_dropped_by_warp_and_vrt :
    (GOrioReproject (sampleEngine .CE_None northUp .CE_None 7) 7 (some "EPSG:4326")
        (some ["A=1", "B=2"]) world0).2.trace
      = [.GDALAutoCreateWarpedVRT 7 none (some "EPSG:4326") .GRA_Bilinear 5.0 0] ∧
    (GOrioWarp (sampleEngine .CE_None northUp .CE_None 7) 7 (some "EPSG:4326")
        (some ["A=1", "B=2"]) world0).2.trace
      = [.GDALAutoCreateWarpedVRT 7 none (some "EPSG:4326") .GRA_Bilinear 0.0 0] ∧
    (GOrioBuildVRT (sampleEngine .CE_None northUp .CE_None 7) (some "o.vrt") 2
        (some (fun _ => 7)) (some ["A=1", "B=2"]) world0).2.trace
      = [.GDALBuildVRT (some "o.vrt") 2 [7, 7] none 0] ∧
    (GOrioCreateCopy (sampleEngine .CE_None northUp .CE_None 7) 7 (some "o.tif")
        (some ["A=1", "B=2"]) world0).2.trace
      = [.GetDriverByName "GTiff", .CreateCopy 7 (some "o.tif") 7 0 (some ["A=1", "B=2"]) 0 0] ∧
    (GOrioCreate (sampleEngine .CE_None northUp .CE_None 7) (some "o.tif") 10 10 1 .GDT_Int32
        (some ["A=1", "B=2"]) world0).2.trace
      = [.GetDriverByName "GTiff",
         .Create 7 (some "o.tif") 10 10 1 .GDT_Int32 (some ["A=1", "B=2"])] ∧
    (GOrioConvertToImage (sampleEngine .CE_None northUp .CE_None 7) 7 (some "o.png")
        (some "PNG") (some ["A=1", "B=2"]) world0).2.trace
      = [.GDALTranslateOptionsNew (some ["A=1", "B=2"]) 0, .GDALTranslate (some "o.png") 7 7 0,
         .GDALClose 7, .GDALTranslateOptionsFree 7] :=
  ⟨rfl, rfl, rfl, rfl, rfl, rfl⟩

/-- The collecting loop of `GOrioBuildVRT` appends, to what it has so far,
the non-null entries it visits, in the order it visits them. -/
theorem collect_eq_filter (a : Nat → Handle) :
    ∀ (l : List Nat) (acc : List Handle),
      l.foldl (fun srcDatasets i =>
        if a i ≠ 0 then srcDatasets ++ [a i] else srcDatasets) acc
      = acc ++ (l.map a).filter (fun h => decide (h ≠ 0))
  | [], acc => by simp
  | i :: l, acc => by
    rw [List.foldl_cons, collect_eq_filter a l]
    by_cases hi : a i = 0
    · simp [hi]
    · simp [hi, List.filter_cons]

/-- C15: for a non-null filename, `count > 0` and a non-null handle array
with at least one non-null handle among its first `count` entries,
`GOrioBuildVRT` makes exactly one engine call, `GDALBuildVRT`, whose source
list is the subsequence of the non-null handles among those entries (order
and duplicates kept) and whose source count is the length of that list, and
it returns the engine's answer unchanged. -/
theorem GOrioBuildVRT_forwards (E : Engine σ D) (filename : String) (count : Int)
    (a : Nat → Handle) (options : Options) (w : World σ D)
    (hcount : 0 < count) (hsome : ∃ i : Nat, (i : Int) < count ∧ a i ≠ 0) :
    GOrioBuildVRT E (some filename) count (some a) options w =
      call E (.GDALBuildVRT (some filename) (nonNullSources a count).length
        (nonNullSources a count) none 0) w ∧
    (GOrioBuildVRT E (some filename) count (some a) options w).2.trace =
      w.trace ++ [.GDALBuildVRT (some filename) (nonNullSources a count).length
        (nonNullSources a count) none 0] ∧
    (GOrioBuildVRT E (some filename) count (some a) options w).1 =
      (E (.GDALBuildVRT (some filename) (nonNullSources a count).length
        (nonNullSources a count) none 0) w.eng).1 := by
  have hne : nonNullSources a count ≠ [] := by
    obtain ⟨i, hi, hai⟩ := hsome
    have hmem : a i ∈ nonNullSources a count := by
      unfold nonNullSources
      rw [List.mem_filter]
      refine ⟨List.mem_map.mpr ⟨i, List.mem_range.mpr (by omega), rfl⟩, ?_⟩
      simpa using hai
    exact List.ne_nil_of_mem hmem
  have hpre : ¬ ((some filename : CString) = none ∨ count ≤ 0) := by
    rintro (h | h)
    · exact absurd h (by simp)
    · omega
  have hcollect := collect_eq_filter a (List.range count.toNat) []
  rw [List.nil_append] at hcollect
  have hempty : (nonNullSources a count).isEmpty = false := by
    cases hl : nonNullSources a count with
    | nil => exact absurd hl hne
    | cons x xs => rfl
  have key : GOrioBuildVRT E (some filename) count (some a) options w =
      call E (.GDALBuildVRT (some filename) (nonNullSources a count).length
        (nonNullSources a count) none 0) w := by
    have hfold : (List.range count.toNat).foldl (fun srcDatasets i =>
        if a i ≠ 0 then srcDatasets ++ [a i] else srcDatasets) []
        = nonNullSources a count := hcollect
    unfold GOrioBuildVRT
    simp only [if_neg hpre]
    rw [hfold]
    simp [hempty]
  refine ⟨key, ?_, ?_⟩
  · rw [key]
    rfl
  · rw [key]
    rfl

/-- Witness for C15: of the four entries `7, 0, 9, 7` the three non-null
ones are passed on, in order, the duplicate kept. -/
theorem GOrioBuildVRT_forwards_witness :
    GOrioBuildVRT (sampleEngine .CE_None northUp .CE_None 5) (some "o.vrt") 4
        (some (fun i => [7, 0, 9, 7].getD i 0)) none world0
      = (5, { eng := 1, trace := [.GDALBuildVRT (some "o.vrt") 3 [7, 9, 7] none 0] }) :=
  (GOrioBuildVRT_forwards (sampleEngine .CE_None northUp .CE_None 5) "o.vrt" 4
    (fun i => [7, 0, 9, 7].getD i 0) none world0 (by decide)
    ⟨0, by decide, by decide⟩).1

end Properties

end Gorio
